import Mathlib

/-!
Verification of the retirement Monte-Carlo simulation engine
(`src/simulations/simulation_mc_rf.py`, the five-account engine, and
`src/simulations/simulation_mc.py`, the legacy single-pot engine).

Modelling conventions:
* Python floats are modelled as rationals (`ℚ`); exact real arithmetic is
  the intended semantics of the formulas.
* Ages and calendar years are `ℤ`; loop indices are `ℕ`.
* The random draws (`np.random.normal`, the preselected per-year stock/bond
  return rates, and the per-year inflation draw inside `adjust_expenses`)
  are modelled as oracle inputs: the trajectory functions take the already
  drawn per-year rates as explicit arguments.  This matches the source,
  which preselects the return draws for a whole trajectory up front.
* `datetime.now().year` is passed in as an explicit `current_year` argument.
* The string-valued config fields (`filing_status`, `state_of_residence`,
  `simulation_type`) are omitted: the first two are unused by the engine and
  the third only selects which preselected random stream feeds the oracle.
* Python's `sorted(..., key=...)` (a stable ascending sort) is modelled by
  `List.mergeSort` with the boolean key comparison.
-/

/-- Configuration parameters for the simulation
(dataclass `SimulationConfig` in `simulation_mc_rf.py`). -/
structure SimulationConfig where
  current_age : ℤ
  partner_current_age : ℤ
  life_expectancy : ℤ
  retirement_age : ℤ
  partner_retirement_age : ℤ
  -- Initial balances
  initial_savings : ℚ
  self_401k_balance : ℚ
  partner_401k_balance : ℚ
  roth_ira_balance : ℚ
  cash_savings_balance : ℚ
  brokerage_balance : ℚ
  -- Income parameters
  annual_earnings : ℚ
  partner_earnings : ℚ
  self_yearly_increase : ℚ
  partner_yearly_increase : ℚ
  annual_pension : ℚ
  partner_pension : ℚ
  self_pension_yearly_increase : ℚ
  partner_pension_yearly_increase : ℚ
  annual_social_security : ℚ
  partner_social_security : ℚ
  withdrawal_start_age : ℤ
  partner_withdrawal_start_age : ℤ
  -- 401k parameters
  self_401k_contribution : ℚ
  partner_401k_contribution : ℚ
  employer_self_401k_contribution : ℚ
  employer_partner_401k_contribution : ℚ
  maximize_self_contribution : Bool
  maximize_partner_contribution : Bool
  -- Tax parameters
  tax_rate : ℚ
  -- Expense parameters
  annual_expense : ℚ
  mortgage_payment : ℚ
  mortgage_years_remaining : ℤ
  self_healthcare_cost : ℚ
  partner_healthcare_cost : ℚ
  self_healthcare_start_age : ℤ
  partner_healthcare_start_age : ℤ
  annual_expense_decrease : ℚ
  -- Investment parameters
  stock_percentage : ℚ
  bond_percentage : ℚ
  -- Simulation parameters
  simulations : ℕ
  cola_rate : ℚ
  inflation_mean : ℚ
  inflation_std : ℚ
  -- Special events
  years_until_downsize : ℤ
  residual_amount : ℚ
  adjust_expense_years : List ℤ
  adjust_expense_amounts : List ℚ
  one_time_years : List ℤ
  one_time_amounts : List ℚ
  windfall_years : List ℤ
  windfall_amounts : List ℚ
  -- Rental income
  rental_start : ℤ
  rental_end : ℤ
  rental_amt : ℚ
  rental_yearly_increase : ℚ
deriving DecidableEq, Inhabited

/-- Constant `CASH_ACCOUNT_RETURN_RATE = 0.015` from `simulation_mc_rf.py`. -/
def CASH_ACCOUNT_RETURN_RATE : ℚ := 15 / 1000

/-- Tracks current balances across different account types
(dataclass `AccountBalances`). -/
structure AccountBalances where
  self_401k : ℚ
  partner_401k : ℚ
  roth_ira : ℚ
  brokerage : ℚ
  cash : ℚ
deriving DecidableEq, Inhabited

/-- Source `AccountBalances.total` property: total account balance. -/
def AccountBalances.total (b : AccountBalances) : ℚ :=
  b.self_401k + b.partner_401k + b.roth_ira + b.brokerage + b.cash

/-- Investment returns for a given year (dataclass `YearlyReturns`).
`total` is a stored field, as in the source. -/
structure YearlyReturns where
  self_401k : ℚ
  partner_401k : ℚ
  roth_ira : ℚ
  brokerage : ℚ
  cash : ℚ
  total : ℚ
deriving DecidableEq, Inhabited

/-- Source `YearlyReturns.return_rate` property:
`self.total / 100 if self.total != 0 else 0`.  (The source comment notes
this is simplified and is not a quotient by the beginning balance.) -/
def YearlyReturns.return_rate (r : YearlyReturns) : ℚ :=
  if r.total ≠ 0 then r.total / 100 else 0

/-- Withdrawal amounts for a given year (dataclass `YearlyDraws`). -/
structure YearlyDraws where
  self_401k : ℚ
  partner_401k : ℚ
  roth_ira : ℚ
  brokerage : ℚ
  cash : ℚ
  total : ℚ
deriving DecidableEq, Inhabited

/-- Income sources for a given year (dataclass `YearlyIncome`). -/
structure YearlyIncome where
  self_earnings : ℚ
  partner_earnings : ℚ
  self_social_security : ℚ
  partner_social_security : ℚ
  self_pension : ℚ
  partner_pension : ℚ
  rental : ℚ
deriving DecidableEq, Inhabited

/-- Source `YearlyIncome.total` property: total income. -/
def YearlyIncome.total (i : YearlyIncome) : ℚ :=
  i.self_earnings + i.partner_earnings +
    i.self_social_security + i.partner_social_security +
    i.self_pension + i.partner_pension + i.rental

/-- Expense categories for a given year (dataclass `YearlyExpenses`). -/
structure YearlyExpenses where
  basic : ℚ
  mortgage : ℚ
  self_healthcare : ℚ
  partner_healthcare : ℚ
  one_time : ℚ
deriving DecidableEq, Inhabited

/-- Source `YearlyExpenses.total` property: total expenses. -/
def YearlyExpenses.total (e : YearlyExpenses) : ℚ :=
  e.basic + e.mortgage + e.self_healthcare + e.partner_healthcare + e.one_time

/-- Complete cash flow for a given year (dataclass `YearlyCashFlow`). -/
structure YearlyCashFlow where
  year : ℤ
  self_age : ℤ
  partner_age : ℤ
  income : YearlyIncome
  expenses : YearlyExpenses
  tax : ℚ
  beginning_balance : ℚ
  ending_balance : ℚ
  end_value_constant_currency : ℚ
  portfolio_draw : ℚ
  draws : YearlyDraws
  investment_return : YearlyReturns
  contributions : List ℚ
  account_balances : AccountBalances
  downsize_proceeds : ℚ
  windfall_amount : ℚ
  expense_adjustment : ℚ
  simulation_id : Option ℕ
deriving DecidableEq, Inhabited

/-- One trajectory's result: the dict built at the end of each simulation in
`monte_carlo_simulation` (`simulation_mc_rf.py`, lines 378–384). -/
structure SimulationResult where
  simulation_id : ℕ
  year_of_depletion : ℤ
  final_balance : ℚ
  success : Bool
  cash_flows : List YearlyCashFlow
deriving DecidableEq, Inhabited

/-! ### Pure helper functions of the five-account engine -/

/-- Source `calculate_earnings`: earnings based on age and retirement status. -/
def calculate_earnings (starting_earnings yearly_increment : ℚ) (year : ℕ)
    (retirement_age current_age : ℤ) : ℚ :=
  if current_age < retirement_age then
    starting_earnings * (1 + yearly_increment) ^ year
  else 0

/-- Source `calculate_pension`: pension income based on retirement status. -/
def calculate_pension (annual_pension pension_yearly_increase : ℚ) (_year : ℕ)
    (retirement_age current_age : ℤ) : ℚ :=
  if current_age ≥ retirement_age then
    annual_pension * (1 + pension_yearly_increase) ^ (current_age - retirement_age).toNat
  else 0

/-- Source `calculate_social_security`: benefits based on eligibility age. -/
def calculate_social_security (annual_ss cola_rate : ℚ)
    (withdrawal_start_age current_age : ℤ) : ℚ :=
  if current_age ≥ withdrawal_start_age then
    annual_ss * (1 + cola_rate) ^ (current_age - withdrawal_start_age).toNat
  else 0

/-- Source `calculate_mortgage`: mortgage payment based on remaining years. -/
def calculate_mortgage (mortgage_payment : ℚ) (year : ℕ)
    (mortgage_years_remaining : ℤ) : ℚ :=
  if (year : ℤ) < mortgage_years_remaining then mortgage_payment else 0

/-- Source `calculate_healthcare_costs`: healthcare costs for self and partner.
Returns (total, self, partner) as in the source. -/
def calculate_healthcare_costs (current_age : ℤ) (self_healthcare_cost : ℚ)
    (self_healthcare_start_age : ℤ) (partner_current_age : ℤ)
    (partner_healthcare_cost : ℚ) (partner_healthcare_start_age : ℤ)
    (inflation_mean : ℚ) : ℚ × ℚ × ℚ :=
  let self_cost : ℚ :=
    if current_age ≥ self_healthcare_start_age then
      if current_age < 65 then
        self_healthcare_cost *
          (1 + inflation_mean) ^ (current_age - self_healthcare_start_age).toNat
      else 0
    else 0
  let partner_cost : ℚ :=
    if partner_current_age ≥ partner_healthcare_start_age then
      if partner_current_age < 65 then
        partner_healthcare_cost *
          (1 + inflation_mean) ^ (partner_current_age - partner_healthcare_start_age).toNat
      else 0
    else 0
  (self_cost + partner_cost, self_cost, partner_cost)

/-- Source `adjust_expenses` (five-account engine): adjust expenses for inflation and
retirement status.  The `np.random.normal(inflation_mean, inflation_std)` draw
is the oracle argument `inflation_rate`. -/
def adjust_expenses (current_expense : ℚ) (inflation_rate : ℚ)
    (annual_expense_decrease : ℚ) (year : ℕ) (current_age retirement_age : ℤ)
    (partner_current_age partner_retirement_age : ℤ) : ℚ :=
  if year > 0 then
    if current_age ≥ retirement_age ∨ partner_current_age ≥ partner_retirement_age then
      current_expense * (1 + inflation_rate - annual_expense_decrease)
    else
      current_expense * (1 + inflation_rate)
  else current_expense

/-- Source `calculate_portfolio_draw`: required portfolio withdrawal and total tax. -/
def calculate_portfolio_draw (total_expense gross_income estimated_tax tax_rate : ℚ) :
    ℚ × ℚ :=
  if total_expense ≤ gross_income - estimated_tax then
    (0, estimated_tax)
  else
    let portfolio_draw := total_expense - (gross_income - estimated_tax)
    let portfolio_tax := portfolio_draw * tax_rate
    let total_tax := portfolio_tax + estimated_tax
    (portfolio_draw + portfolio_tax, total_tax)

/-- Source `calculate_draws`: withdrawal amounts from each account type, in the
fixed order brokerage, self 401k, partner 401k, cash, roth IRA. -/
def calculate_draws (portfolio_draw : ℚ) (balances : AccountBalances) : YearlyDraws :=
  let remaining0 := portfolio_draw
  let brokerage_draw := min remaining0 balances.brokerage
  let remaining1 := remaining0 - brokerage_draw
  let self_401k_draw := min remaining1 balances.self_401k
  let remaining2 := remaining1 - self_401k_draw
  let partner_401k_draw := min remaining2 balances.partner_401k
  let remaining3 := remaining2 - partner_401k_draw
  let cash_draw := min remaining3 balances.cash
  let remaining4 := remaining3 - cash_draw
  let roth_ira_draw := min remaining4 balances.roth_ira
  let remaining5 := remaining4 - roth_ira_draw
  { self_401k := self_401k_draw
    partner_401k := partner_401k_draw
    roth_ira := roth_ira_draw
    brokerage := brokerage_draw
    cash := cash_draw
    total := portfolio_draw - remaining5 }

/-- Source `update_account_balances`: update balances with contributions, returns and
withdrawals; the brokerage account additionally absorbs a positive net surplus. -/
def update_account_balances (balances : AccountBalances) (returns : YearlyReturns)
    (draws : YearlyDraws) (self_contribution partner_contribution : ℚ)
    (income expenses tax : ℚ) : AccountBalances :=
  let net_surplus := income - expenses - tax - self_contribution - partner_contribution
  { self_401k := balances.self_401k + self_contribution + returns.self_401k - draws.self_401k
    partner_401k :=
      balances.partner_401k + partner_contribution + returns.partner_401k - draws.partner_401k
    roth_ira := balances.roth_ira + returns.roth_ira - draws.roth_ira
    cash := balances.cash + returns.cash - draws.cash
    brokerage :=
      if net_surplus > 0 then
        balances.brokerage + returns.brokerage - draws.brokerage + net_surplus
      else
        balances.brokerage + returns.brokerage - draws.brokerage }

/-- Source `contribution_limits["401k"]` from `tax_master_data.py`, with the keys
sorted in descending order as `get_latest_limit` iterates them. -/
def contribution_limits_401k : List (ℤ × ℚ) :=
  [(2025, 23500), (2024, 23000), (2023, 22500), (2022, 20000), (2021, 19500)]

/-- Source `contribution_limits["catch_up"]` from `tax_master_data.py`, keys sorted
in descending order. -/
def contribution_limits_catch_up : List (ℤ × ℚ) :=
  [(2025, 7500), (2024, 7500), (2023, 7500), (2022, 6500), (2021, 6500)]

/-- Source `catchup_age_401k = 50` from `tax_master_data.py`. -/
def cathup_age_401k : ℤ := 50

/-- Source `get_latest_limit`: scan the limit table's keys in descending order and
return the first value whose year is ≤ the current year (0 if none). -/
def get_latest_limit : List (ℤ × ℚ) → ℤ → ℚ
  | [], _ => 0
  | (y, v) :: rest, current_year =>
      if y ≤ current_year then v else get_latest_limit rest current_year

/-- Source `calculate_401k_contribution`: 401k contribution including employer match
and catch-up. -/
def calculate_401k_contribution (current_age retirement_age : ℤ)
    (yearly_contribution employer_contribution : ℚ) (current_year : ℤ) (year : ℕ)
    (cola_rate : ℚ) (maximize_contribution : Bool) (pay_growth_rate : ℚ) : ℚ :=
  if current_age ≥ retirement_age then 0
  else
    let base_limit := get_latest_limit contribution_limits_401k current_year
    let adjusted_limit := base_limit * (1 + cola_rate) ^ year
    let base_catch_up_limit := get_latest_limit contribution_limits_catch_up current_year
    let adjusted_catch_up_limit := base_catch_up_limit * (1 + cola_rate) ^ year
    let scaled_yearly_contribution := yearly_contribution * (1 + pay_growth_rate) ^ year
    let scaled_employer_contribution := employer_contribution * (1 + pay_growth_rate) ^ year
    let catch_up_amount := if current_age ≥ cathup_age_401k then adjusted_catch_up_limit else 0
    let employee_contribution :=
      if maximize_contribution then adjusted_limit + catch_up_amount
      else min scaled_yearly_contribution (adjusted_limit + catch_up_amount)
    employee_contribution + scaled_employer_contribution

/-- Source `calculate_windfall`: sum of windfall amounts whose configured year equals
the current calendar year.  (The year and amount lists are paired, as the
source indexes them in lockstep.) -/
def calculate_windfall (windfall_years : List ℤ) (windfall_amounts : List ℚ)
    (current_year : ℤ) : ℚ :=
  (windfall_years.zip windfall_amounts).foldl
    (fun acc p => if p.1 = current_year then acc + p.2 else acc) 0

/-- Source `get_expense_adjustment`: sum of expense adjustments configured for the
current calendar year. -/
def get_expense_adjustment (adjust_expense_years : List ℤ)
    (adjust_expense_amounts : List ℚ) (current_year : ℤ) : ℚ :=
  (adjust_expense_years.zip adjust_expense_amounts).foldl
    (fun acc p => if p.1 = current_year then acc + p.2 else acc) 0

/-- Source `calculate_one_time_expense`: sum of one-time expenses configured for the
current calendar year. -/
def calculate_one_time_expense (one_time_years : List ℤ) (one_time_amounts : List ℚ)
    (current_year : ℤ) : ℚ :=
  (one_time_years.zip one_time_amounts).foldl
    (fun acc p => if p.1 = current_year then acc + p.2 else acc) 0

/-- Source `calculate_yearly_income`: all income sources for a given year. -/
def calculate_yearly_income (config : SimulationConfig) (self_age partner_age : ℤ)
    (year : ℕ) (current_year : ℤ) : YearlyIncome :=
  let rental_income : ℚ :=
    if config.rental_start ≤ current_year + year ∧ current_year + year ≤ config.rental_end then
      config.rental_amt *
        (1 + config.rental_yearly_increase) ^ (current_year + year - config.rental_start).toNat
    else 0
  { self_earnings :=
      calculate_earnings config.annual_earnings config.self_yearly_increase year
        config.retirement_age self_age
    partner_earnings :=
      calculate_earnings config.partner_earnings config.partner_yearly_increase year
        config.partner_retirement_age partner_age
    self_social_security :=
      calculate_social_security config.annual_social_security config.cola_rate
        config.withdrawal_start_age self_age
    partner_social_security :=
      calculate_social_security config.partner_social_security config.cola_rate
        config.partner_withdrawal_start_age partner_age
    self_pension :=
      calculate_pension config.annual_pension config.self_pension_yearly_increase year
        config.retirement_age self_age
    partner_pension :=
      calculate_pension config.partner_pension config.partner_pension_yearly_increase year
        config.partner_retirement_age partner_age
    rental := rental_income }

/-- Source `calculate_yearly_expenses`: all expense categories for a given year. -/
def calculate_yearly_expenses (config : SimulationConfig) (self_age partner_age : ℤ)
    (year : ℕ) (current_year : ℤ) (current_expense : ℚ) : YearlyExpenses :=
  let mortgage := calculate_mortgage config.mortgage_payment year config.mortgage_years_remaining
  let hc := calculate_healthcare_costs self_age config.self_healthcare_cost
    config.self_healthcare_start_age partner_age config.partner_healthcare_cost
    config.partner_healthcare_start_age config.inflation_mean
  let one_time_expense :=
    calculate_one_time_expense config.one_time_years config.one_time_amounts
      (current_year + year)
  { basic := current_expense
    mortgage := mortgage
    self_healthcare := hc.2.1
    partner_healthcare := hc.2.2
    one_time := one_time_expense }

/-- Source `calculate_investment_return`: investment returns across all account types.
The preselected (stock, bond) return draw for this year is the oracle argument
`rates` (the source selects it from the preselected arrays by simulation type). -/
def calculate_investment_return (config : SimulationConfig) (balances : AccountBalances)
    (savings : ℚ) (rates : ℚ × ℚ) : YearlyReturns :=
  let weighted_return :=
    rates.1 * (config.stock_percentage / 100) + rates.2 * (config.bond_percentage / 100)
  { self_401k := balances.self_401k * weighted_return
    partner_401k := balances.partner_401k * weighted_return
    roth_ira := balances.roth_ira * weighted_return
    brokerage := balances.brokerage * weighted_return
    cash := balances.cash * CASH_ACCOUNT_RETURN_RATE
    total := savings * weighted_return }

/-! ### The trajectory driver (the per-simulation loop of `monte_carlo_simulation`) -/

/-- Source `years_in_simulation = config.life_expectancy - config.current_age + 1`
(clamped at 0 for the `range` iteration). -/
def years_in_simulation (config : SimulationConfig) : ℕ :=
  (config.life_expectancy - config.current_age + 1).toNat

/-- The per-trajectory mutable state of the simulation loop. -/
structure YearState where
  balances : AccountBalances
  savings : ℚ
  current_annual_expense : ℚ
  cash_flows : List YearlyCashFlow
  year_of_depletion : Option ℤ
deriving DecidableEq, Inhabited

/-- One iteration of the year loop of `monte_carlo_simulation`
(`simulation_mc_rf.py`, lines 264–371).  `rates year` is the preselected
(stock, bond) return draw and `inflation_draws year` the inflation draw
consumed by `adjust_expenses` in this iteration. -/
def simulateYear (config : SimulationConfig) (current_year : ℤ) (sim : ℕ)
    (rates : ℕ → ℚ × ℚ) (inflation_draws : ℕ → ℚ) (year : ℕ) (st : YearState) :
    YearState :=
  -- set the initial value to -1 if balance becomes negative
  let savings0 := if st.savings < 0 then -1 else st.savings
  let self_age := config.current_age + year
  let partner_age := config.partner_current_age + year
  let income := calculate_yearly_income config self_age partner_age year current_year
  let self_contribution :=
    calculate_401k_contribution self_age config.retirement_age
      config.self_401k_contribution config.employer_self_401k_contribution
      current_year year config.cola_rate config.maximize_self_contribution
      config.self_yearly_increase
  let partner_contribution :=
    calculate_401k_contribution partner_age config.partner_retirement_age
      config.partner_401k_contribution config.employer_partner_401k_contribution
      current_year year config.cola_rate config.maximize_partner_contribution
      config.partner_yearly_increase
  let current_annual_expense :=
    adjust_expenses st.current_annual_expense (inflation_draws year)
      config.annual_expense_decrease year self_age config.retirement_age
      partner_age config.partner_retirement_age
  let expenses :=
    calculate_yearly_expenses config self_age partner_age year current_year
      current_annual_expense
  let pd :=
    calculate_portfolio_draw expenses.total income.total
      (income.total * config.tax_rate) config.tax_rate
  let portfolio_draw := pd.1
  let total_tax := pd.2
  let draws := calculate_draws portfolio_draw st.balances
  let investment_return := calculate_investment_return config st.balances savings0 (rates year)
  let downsize_proceeds :=
    if (year : ℤ) = config.years_until_downsize then config.residual_amount else 0
  let windfall_amount :=
    calculate_windfall config.windfall_years config.windfall_amounts (current_year + year)
  let expense_adjustment :=
    get_expense_adjustment config.adjust_expense_years config.adjust_expense_amounts
      (current_year + year)
  let new_balances :=
    update_account_balances st.balances investment_return draws
      self_contribution partner_contribution income.total expenses.total total_tax
  let ending_portfolio_value :=
    savings0 + investment_return.total + income.total - expenses.total - total_tax
  let end_value_at_current_currency :=
    ending_portfolio_value / (1 + config.inflation_mean) ^ (year + 1)
  let cash_flow_entry : YearlyCashFlow :=
    { year := current_year + year
      self_age := self_age
      partner_age := partner_age
      income := income
      expenses := expenses
      tax := total_tax
      beginning_balance := savings0
      ending_balance := ending_portfolio_value
      end_value_constant_currency := end_value_at_current_currency
      portfolio_draw := portfolio_draw
      draws := draws
      investment_return := investment_return
      contributions := [self_contribution, partner_contribution]
      account_balances := new_balances
      downsize_proceeds := downsize_proceeds
      windfall_amount := windfall_amount
      expense_adjustment := expense_adjustment
      simulation_id := some sim }
  -- Set next period's opening balance
  let new_savings := ending_portfolio_value + downsize_proceeds + windfall_amount
  -- Check for depletion - only set once per simulation
  let new_depletion :=
    match st.year_of_depletion with
    | some d => some d
    | none => if new_savings < 0 then some (current_year + year) else none
  { balances := new_balances
    savings := new_savings
    current_annual_expense := current_annual_expense
    cash_flows := st.cash_flows ++ [cash_flow_entry]
    year_of_depletion := new_depletion }

/-- Run `n` successive year iterations starting at loop index `year`. -/
def runYears (config : SimulationConfig) (current_year : ℤ) (sim : ℕ)
    (rates : ℕ → ℚ × ℚ) (inflation_draws : ℕ → ℚ) :
    ℕ → ℕ → YearState → YearState
  | 0, _, st => st
  | n + 1, year, st =>
      runYears config current_year sim rates inflation_draws n (year + 1)
        (simulateYear config current_year sim rates inflation_draws year st)

/-- The initial per-trajectory state (`simulation_mc_rf.py`, lines 240–252). -/
def initState (config : SimulationConfig) : YearState :=
  { balances :=
      { self_401k := config.self_401k_balance
        partner_401k := config.partner_401k_balance
        roth_ira := config.roth_ira_balance
        brokerage := config.brokerage_balance
        cash := config.cash_savings_balance }
    savings := config.initial_savings
    current_annual_expense := config.annual_expense
    cash_flows := []
    year_of_depletion := none }

/-- One full trajectory of `monte_carlo_simulation`: the year loop plus the
sentinel fill-in for the depletion year and the result record
(`simulation_mc_rf.py`, lines 238–384). -/
def runTrajectory (config : SimulationConfig) (current_year : ℤ)
    (rates : ℕ → ℚ × ℚ) (inflation_draws : ℕ → ℚ) (sim : ℕ) : SimulationResult :=
  let st :=
    runYears config current_year sim rates inflation_draws
      (years_in_simulation config) 0 (initState config)
  { simulation_id := sim
    year_of_depletion :=
      st.year_of_depletion.getD (current_year + (years_in_simulation config : ℤ) - 1)
    final_balance := st.savings
    success := decide (st.savings ≥ 0)
    cash_flows := st.cash_flows }

/-- The sort key comparison of `sorted(..., key=lambda sim:
(sim["year_of_depletion"], sim["final_balance"]))`: ascending lexicographic
order on the pair (depletion year, final balance). -/
def resLE (a b : SimulationResult) : Bool :=
  decide (a.year_of_depletion < b.year_of_depletion ∨
    (a.year_of_depletion = b.year_of_depletion ∧ a.final_balance ≤ b.final_balance))

/-- The batch runner `monte_carlo_simulation` (`simulation_mc_rf.py`):
returns success count, failure count, and the sorted simulation results.
`rates sim year` / `inflation_draws sim year` are the random draws of
trajectory `sim` at year `year`; the success/failure tallies of the source's
running counters are expressed as filter-lengths over the same results. -/
def monte_carlo_simulation (config : SimulationConfig) (current_year : ℤ)
    (rates : ℕ → ℕ → ℚ × ℚ) (inflation_draws : ℕ → ℕ → ℚ) :
    ℕ × ℕ × List SimulationResult :=
  let all_simulation_results :=
    (List.range config.simulations).map
      (fun sim => runTrajectory config current_year (rates sim) (inflation_draws sim) sim)
  let success_count := (all_simulation_results.filter (fun r => r.success)).length
  let failure_count := (all_simulation_results.filter (fun r => !r.success)).length
  (success_count, failure_count, all_simulation_results.mergeSort resLE)

/-! ### The legacy single-pot engine (`simulation_mc.py`) -/

namespace MC

/-- Source `adjust_expenses` in the legacy engine (`simulation_mc.py`, lines 223–231).
Note the conjunction: the retirement expense decrease applies only when BOTH
partners have reached their retirement ages, unlike the five-account engine's
disjunction.  The inflation draw is the oracle argument `inflation_rate`. -/
def adjust_expenses (current_expense : ℚ) (inflation_rate : ℚ)
    (annual_expense_decrease : ℚ) (year : ℕ) (current_age retirement_age : ℤ)
    (partner_current_age partner_retirement_age : ℤ) : ℚ :=
  if year > 0 then
    if current_age ≥ retirement_age ∧ partner_current_age ≥ partner_retirement_age then
      current_expense * (1 + inflation_rate - annual_expense_decrease)
    else
      current_expense * (1 + inflation_rate)
  else current_expense

/-- Source `return_rate = investment_return / savings` (`simulation_mc.py`, line 106).
The division is unguarded; Python raises `ZeroDivisionError` when
`savings == 0`, modelled as `none`. -/
def return_rate_div (investment_return savings : ℚ) : Option ℚ :=
  if savings = 0 then none else some (investment_return / savings)

end MC

/-- The 'Drawdown %' rate of `convert_to_dict_for_display`
(`simulation_mc_rf.py`, line 795): guarded to 0 unless the ending balance is
positive. -/
def drawdown_pct (cf : YearlyCashFlow) : ℚ :=
  if cf.ending_balance > 0 then cf.portfolio_draw / cf.ending_balance else 0

/-! ### C2: tax and portfolio-draw policy -/

/-- C2: with `estimated_tax = gross_income × tax_rate` (as the caller passes
it), `calculate_portfolio_draw` returns draw 0 and tax `estimated_tax` when
`total_expense ≤ gross_income − estimated_tax`; otherwise the pre-tax draw is
`total_expense − (gross_income − estimated_tax)`, the draw is itself taxed at
the flat rate, total tax is `estimated_tax` plus that portfolio tax, and the
amount requested from accounts is the pre-tax draw plus the portfolio tax. -/
theorem calculate_portfolio_draw_spec (total_expense gross_income tax_rate : ℚ) :
    calculate_portfolio_draw total_expense gross_income
        (gross_income * tax_rate) tax_rate =
      if total_expense ≤ gross_income - gross_income * tax_rate then
        (0, gross_income * tax_rate)
      else
        (total_expense - (gross_income - gross_income * tax_rate) +
            (total_expense - (gross_income - gross_income * tax_rate)) * tax_rate,
         gross_income * tax_rate +
            (total_expense - (gross_income - gross_income * tax_rate)) * tax_rate) := by
  unfold calculate_portfolio_draw
  split
  · rfl
  · simp only [Prod.mk.injEq]
    constructor
    · ring
    · ring

/-! ### C3: the withdrawal waterfall -/

/-- C3: for a nonnegative requested draw and nonnegative balances, the
waterfall draws in the fixed order brokerage, self 401k, partner 401k, cash,
roth IRA; no account is drawn beyond its balance; the five per-account draws
sum to the recorded total; the total is ≤ the requested draw, with equality
unless all five accounts are exhausted. -/
theorem calculate_draws_spec (p : ℚ) (b : AccountBalances)
    (hp : 0 ≤ p) (hbrok : 0 ≤ b.brokerage) (hself : 0 ≤ b.self_401k)
    (hpart : 0 ≤ b.partner_401k) (hcash : 0 ≤ b.cash) (hroth : 0 ≤ b.roth_ira) :
    (calculate_draws p b).brokerage = min p b.brokerage ∧
    (calculate_draws p b).self_401k =
      min (p - (calculate_draws p b).brokerage) b.self_401k ∧
    (calculate_draws p b).partner_401k =
      min (p - (calculate_draws p b).brokerage - (calculate_draws p b).self_401k)
        b.partner_401k ∧
    (calculate_draws p b).cash =
      min (p - (calculate_draws p b).brokerage - (calculate_draws p b).self_401k -
          (calculate_draws p b).partner_401k) b.cash ∧
    (calculate_draws p b).roth_ira =
      min (p - (calculate_draws p b).brokerage - (calculate_draws p b).self_401k -
          (calculate_draws p b).partner_401k - (calculate_draws p b).cash) b.roth_ira ∧
    (calculate_draws p b).brokerage ≤ b.brokerage ∧
    (calculate_draws p b).self_401k ≤ b.self_401k ∧
    (calculate_draws p b).partner_401k ≤ b.partner_401k ∧
    (calculate_draws p b).cash ≤ b.cash ∧
    (calculate_draws p b).roth_ira ≤ b.roth_ira ∧
    (calculate_draws p b).brokerage + (calculate_draws p b).self_401k +
        (calculate_draws p b).partner_401k + (calculate_draws p b).cash +
        (calculate_draws p b).roth_ira = (calculate_draws p b).total ∧
    (calculate_draws p b).total ≤ p ∧
    ((calculate_draws p b).total = p ∨
      ((calculate_draws p b).brokerage = b.brokerage ∧
       (calculate_draws p b).self_401k = b.self_401k ∧
       (calculate_draws p b).partner_401k = b.partner_401k ∧
       (calculate_draws p b).cash = b.cash ∧
       (calculate_draws p b).roth_ira = b.roth_ira)) := by
  set d1 := min p b.brokerage with hd1
  set r1 := p - d1 with hr1
  set d2 := min r1 b.self_401k with hd2
  set r2 := r1 - d2 with hr2
  set d3 := min r2 b.partner_401k with hd3
  set r3 := r2 - d3 with hr3
  set d4 := min r3 b.cash with hd4
  set r4 := r3 - d4 with hr4
  set d5 := min r4 b.roth_ira with hd5
  set r5 := r4 - d5 with hr5
  have hEq : calculate_draws p b = ⟨d2, d3, d5, d1, d4, p - r5⟩ := rfl
  rw [hEq]
  dsimp only
  have hd1p : d1 ≤ p := by rw [hd1]; exact min_le_left _ _
  have hd1b : d1 ≤ b.brokerage := by rw [hd1]; exact min_le_right _ _
  have hd1n : 0 ≤ d1 := by rw [hd1]; exact le_min hp hbrok
  have hr1n : 0 ≤ r1 := by rw [hr1]; linarith
  have hd2r : d2 ≤ r1 := by rw [hd2]; exact min_le_left _ _
  have hd2b : d2 ≤ b.self_401k := by rw [hd2]; exact min_le_right _ _
  have hd2n : 0 ≤ d2 := by rw [hd2]; exact le_min hr1n hself
  have hr2n : 0 ≤ r2 := by rw [hr2]; linarith
  have hd3r : d3 ≤ r2 := by rw [hd3]; exact min_le_left _ _
  have hd3b : d3 ≤ b.partner_401k := by rw [hd3]; exact min_le_right _ _
  have hd3n : 0 ≤ d3 := by rw [hd3]; exact le_min hr2n hpart
  have hr3n : 0 ≤ r3 := by rw [hr3]; linarith
  have hd4r : d4 ≤ r3 := by rw [hd4]; exact min_le_left _ _
  have hd4b : d4 ≤ b.cash := by rw [hd4]; exact min_le_right _ _
  have hd4n : 0 ≤ d4 := by rw [hd4]; exact le_min hr3n hcash
  have hr4n : 0 ≤ r4 := by rw [hr4]; linarith
  have hd5r : d5 ≤ r4 := by rw [hd5]; exact min_le_left _ _
  have hd5b : d5 ≤ b.roth_ira := by rw [hd5]; exact min_le_right _ _
  have hd5n : 0 ≤ d5 := by rw [hd5]; exact le_min hr4n hroth
  have hr5n : 0 ≤ r5 := by rw [hr5]; linarith
  refine ⟨hd1, ?_, ?_, ?_, ?_, hd1b, hd2b, hd3b, hd4b, hd5b, ?_, ?_, ?_⟩
  · rw [hd2, hr1]
  · rw [hd3, hr2, hr1]
  · rw [hd4, hr3, hr2, hr1]
  · rw [hd5, hr4, hr3, hr2, hr1]
  · rw [hr5, hr4, hr3, hr2, hr1]; ring
  · linarith
  · rcases lt_or_eq_of_le hr5n with hpos | hzero
    · right
      have h5 : d5 = b.roth_ira := by
        rcases min_choice r4 b.roth_ira with h | h
        · exfalso; rw [hr5, hd5, h] at hpos; linarith
        · rw [hd5, h]
      have hr4pos : 0 < r4 := by rw [hr5] at hpos; linarith
      have h4 : d4 = b.cash := by
        rcases min_choice r3 b.cash with h | h
        · exfalso; rw [hr4, hd4, h] at hr4pos; linarith
        · rw [hd4, h]
      have hr3pos : 0 < r3 := by rw [hr4] at hr4pos; linarith
      have h3 : d3 = b.partner_401k := by
        rcases min_choice r2 b.partner_401k with h | h
        · exfalso; rw [hr3, hd3, h] at hr3pos; linarith
        · rw [hd3, h]
      have hr2pos : 0 < r2 := by rw [hr3] at hr3pos; linarith
      have h2 : d2 = b.self_401k := by
        rcases min_choice r1 b.self_401k with h | h
        · exfalso; rw [hr2, hd2, h] at hr2pos; linarith
        · rw [hd2, h]
      have hr1pos : 0 < r1 := by rw [hr2] at hr2pos; linarith
      have h1 : d1 = b.brokerage := by
        rcases min_choice p b.brokerage with h | h
        · exfalso; rw [hr1, hd1, h] at hr1pos; linarith
        · rw [hd1, h]
      exact ⟨h1, h2, h3, h4, h5⟩
    · left; rw [← hzero]; ring

/-- Concrete account state used to witness the waterfall theorem. -/
def witness_balances : AccountBalances :=
  { self_401k := 1, partner_401k := 1, roth_ira := 1, brokerage := 1, cash := 1 }

/-- Witness for C3: the waterfall theorem applied at the concrete request 5
against five accounts holding 1 each (all drawn in full). -/
theorem calculate_draws_spec_witness :
    (calculate_draws 5 witness_balances).brokerage =
      min 5 witness_balances.brokerage ∧
    (calculate_draws 5 witness_balances).self_401k =
      min (5 - (calculate_draws 5 witness_balances).brokerage)
        witness_balances.self_401k ∧
    (calculate_draws 5 witness_balances).partner_401k =
      min (5 - (calculate_draws 5 witness_balances).brokerage -
          (calculate_draws 5 witness_balances).self_401k)
        witness_balances.partner_401k ∧
    (calculate_draws 5 witness_balances).cash =
      min (5 - (calculate_draws 5 witness_balances).brokerage -
          (calculate_draws 5 witness_balances).self_401k -
          (calculate_draws 5 witness_balances).partner_401k)
        witness_balances.cash ∧
    (calculate_draws 5 witness_balances).roth_ira =
      min (5 - (calculate_draws 5 witness_balances).brokerage -
          (calculate_draws 5 witness_balances).self_401k -
          (calculate_draws 5 witness_balances).partner_401k -
          (calculate_draws 5 witness_balances).cash)
        witness_balances.roth_ira ∧
    (calculate_draws 5 witness_balances).brokerage ≤ witness_balances.brokerage ∧
    (calculate_draws 5 witness_balances).self_401k ≤ witness_balances.self_401k ∧
    (calculate_draws 5 witness_balances).partner_401k ≤ witness_balances.partner_401k ∧
    (calculate_draws 5 witness_balances).cash ≤ witness_balances.cash ∧
    (calculate_draws 5 witness_balances).roth_ira ≤ witness_balances.roth_ira ∧
    (calculate_draws 5 witness_balances).brokerage +
        (calculate_draws 5 witness_balances).self_401k +
        (calculate_draws 5 witness_balances).partner_401k +
        (calculate_draws 5 witness_balances).cash +
        (calculate_draws 5 witness_balances).roth_ira =
      (calculate_draws 5 witness_balances).total ∧
    (calculate_draws 5 witness_balances).total ≤ 5 ∧
    ((calculate_draws 5 witness_balances).total = 5 ∨
      ((calculate_draws 5 witness_balances).brokerage = witness_balances.brokerage ∧
       (calculate_draws 5 witness_balances).self_401k = witness_balances.self_401k ∧
       (calculate_draws 5 witness_balances).partner_401k = witness_balances.partner_401k ∧
       (calculate_draws 5 witness_balances).cash = witness_balances.cash ∧
       (calculate_draws 5 witness_balances).roth_ira = witness_balances.roth_ira)) :=
  calculate_draws_spec 5 witness_balances (by norm_num) (by norm_num [witness_balances])
    (by norm_num [witness_balances]) (by norm_num [witness_balances])
    (by norm_num [witness_balances]) (by norm_num [witness_balances])

/-! ### C5: inflation escalation of the base living expense -/

/-- C5 (amended): in the five-account engine the expense-decrease rate is
subtracted from the drawn inflation rate when at least one partner has reached
their retirement age (a disjunction); in the legacy engine
(`simulation_mc.py`) it is subtracted only when BOTH partners have reached
their retirement ages (a conjunction).  In both engines year 0 is never
escalated, and for year > 0 the previous year's already-escalated expense is
the multiplicand, and within one trajectory each year's output expense is fed
back as the next year's input (`simulateYear` threads
`current_annual_expense`). -/
theorem adjust_expenses_spec (e r dec : ℚ) (y : ℕ) (a ra pa pra : ℤ)
    (config : SimulationConfig) (current_year : ℤ) (sim : ℕ)
    (rates : ℕ → ℚ × ℚ) (inflation_draws : ℕ → ℚ) (year : ℕ) (st : YearState) :
    adjust_expenses e r dec y a ra pa pra =
      (if y = 0 then e
       else if a ≥ ra ∨ pa ≥ pra then e * (1 + r - dec) else e * (1 + r)) ∧
    MC.adjust_expenses e r dec y a ra pa pra =
      (if y = 0 then e
       else if a ≥ ra ∧ pa ≥ pra then e * (1 + r - dec) else e * (1 + r)) ∧
    (simulateYear config current_year sim rates inflation_draws year st).current_annual_expense =
      adjust_expenses st.current_annual_expense (inflation_draws year)
        config.annual_expense_decrease year (config.current_age + year)
        config.retirement_age (config.partner_current_age + year)
        config.partner_retirement_age := by
  refine ⟨?_, ?_, rfl⟩
  · unfold adjust_expenses
    cases y with
    | zero => simp
    | succ n => simp
  · unfold MC.adjust_expenses
    cases y with
    | zero => simp
    | succ n => simp

/-- Counterexample for C5 as stated: in the legacy engine
(`simulation_mc.py`), with the self partner retired (65 ≥ 65) but the other
partner not (60 < 65), a drawn inflation rate of 0 and an expense-decrease
rate of 1/10, the year-1 expense stays 100 — the decrease is NOT subtracted,
although at least one partner has reached their retirement age. -/
theorem adjust_expenses_counterexample :
    ((65 : ℤ) ≥ 65 ∨ (60 : ℤ) ≥ 65) ∧
    MC.adjust_expenses 100 0 (1 / 10) 1 65 65 60 65 = 100 ∧
    (100 : ℚ) ≠ 100 * (1 + 0 - 1 / 10) := by
  refine ⟨Or.inl le_rfl, ?_, by norm_num⟩
  norm_num [MC.adjust_expenses]

/-! ### C9: rate computations at a nonpositive beginning balance -/

/-- C9: the legacy engine (`simulation_mc.py`, line 106) computes
`return_rate = investment_return / savings` with no guard: at a year whose
beginning balance `savings` is 0 the division faults (Python
`ZeroDivisionError`, modelled as `none`) instead of yielding the defined
value 0 that the specification requires.  (The five-account engine's
displayed drawdown rate, by contrast, is guarded: `drawdown_pct` returns 0
at a nonpositive ending balance, shown here at the concrete balance -3.) -/
theorem mc_return_rate_zero_divides :
    MC.return_rate_div 7 0 = none ∧
    drawdown_pct
        { (default : YearlyCashFlow) with ending_balance := -3, portfolio_draw := 7 } = 0 := by
  constructor
  · simp [MC.return_rate_div]
  · norm_num [drawdown_pct]

/-! ### C1: the per-year ledger identity -/

/-- Generic induction principle for the year loop: any per-entry property
established by a single `simulateYear` step holds of every recorded cash
flow. -/
lemma runYears_mem_cash_flows (config : SimulationConfig) (current_year : ℤ)
    (sim : ℕ) (rates : ℕ → ℚ × ℚ) (inflation_draws : ℕ → ℚ)
    (P : YearlyCashFlow → Prop)
    (hstep : ∀ year st cf,
      cf ∈ (simulateYear config current_year sim rates inflation_draws year st).cash_flows →
      cf ∈ st.cash_flows ∨ P cf) :
    ∀ n year st cf,
      cf ∈ (runYears config current_year sim rates inflation_draws n year st).cash_flows →
      cf ∈ st.cash_flows ∨ P cf := by
  intro n
  induction n with
  | zero =>
      intro year st cf h
      exact Or.inl h
  | succ m ih =>
      intro year st cf h
      simp only [runYears] at h
      rcases ih (year + 1)
          (simulateYear config current_year sim rates inflation_draws year st) cf h with
        h' | hp
      · exact hstep year st cf h'
      · exact Or.inr hp

/-- A single year step either preserves membership or appends an entry
satisfying the ledger identity. -/
lemma simulateYear_ledger (config : SimulationConfig) (current_year : ℤ) (sim : ℕ)
    (rates : ℕ → ℚ × ℚ) (inflation_draws : ℕ → ℚ) (year : ℕ) (st : YearState)
    (cf : YearlyCashFlow)
    (h : cf ∈ (simulateYear config current_year sim rates inflation_draws year st).cash_flows) :
    cf ∈ st.cash_flows ∨
      cf.ending_balance =
        cf.beginning_balance + cf.investment_return.total + cf.income.total -
          cf.expenses.total - cf.tax := by
  simp only [simulateYear, List.mem_append, List.mem_singleton] at h
  rcases h with h | h
  · exact Or.inl h
  · subst h
    right
    rfl

/-- C1: every recorded `YearlyCashFlow` of every trajectory satisfies the
exact ledger identity `ending_balance = beginning_balance +
investment_return.total + income.total − expenses.total − tax`; contributions,
downsize proceeds and windfalls do not enter this year's ending balance (they
feed only the next year's opening balance). -/
theorem ledger_identity (config : SimulationConfig) (current_year : ℤ)
    (rates : ℕ → ℚ × ℚ) (inflation_draws : ℕ → ℚ) (sim : ℕ) (cf : YearlyCashFlow)
    (hcf : cf ∈ (runTrajectory config current_year rates inflation_draws sim).cash_flows) :
    cf.ending_balance =
      cf.beginning_balance + cf.investment_return.total + cf.income.total -
        cf.expenses.total - cf.tax := by
  have h :=
    runYears_mem_cash_flows config current_year sim rates inflation_draws
      (fun cf => cf.ending_balance =
        cf.beginning_balance + cf.investment_return.total + cf.income.total -
          cf.expenses.total - cf.tax)
      (simulateYear_ledger config current_year sim rates inflation_draws)
      (years_in_simulation config) 0 (initState config) cf hcf
  rcases h with h | h
  · simp [initState] at h
  · exact h

/-- All-zero return draws used by the concrete witnesses. -/
def zero_rates : ℕ → ℚ × ℚ := fun _ => (0, 0)

/-- All-zero inflation draws used by the concrete witnesses. -/
def zero_inflation : ℕ → ℚ := fun _ => 0

/-- Neutral one-year configuration used by the ledger witness. -/
def zero_config : SimulationConfig :=
  { current_age := 60, partner_current_age := 58, life_expectancy := 60
    retirement_age := 65, partner_retirement_age := 65
    initial_savings := 0, self_401k_balance := 0, partner_401k_balance := 0
    roth_ira_balance := 0, cash_savings_balance := 0, brokerage_balance := 0
    annual_earnings := 0, partner_earnings := 0
    self_yearly_increase := 0, partner_yearly_increase := 0
    annual_pension := 0, partner_pension := 0
    self_pension_yearly_increase := 0, partner_pension_yearly_increase := 0
    annual_social_security := 0, partner_social_security := 0
    withdrawal_start_age := 70, partner_withdrawal_start_age := 70
    self_401k_contribution := 0, partner_401k_contribution := 0
    employer_self_401k_contribution := 0, employer_partner_401k_contribution := 0
    maximize_self_contribution := false, maximize_partner_contribution := false
    tax_rate := 0
    annual_expense := 0, mortgage_payment := 0, mortgage_years_remaining := 0
    self_healthcare_cost := 0, partner_healthcare_cost := 0
    self_healthcare_start_age := 100, partner_healthcare_start_age := 100
    annual_expense_decrease := 0
    stock_percentage := 60, bond_percentage := 40
    simulations := 1, cola_rate := 0, inflation_mean := 0, inflation_std := 0
    years_until_downsize := -5, residual_amount := 0
    adjust_expense_years := [], adjust_expense_amounts := []
    one_time_years := [], one_time_amounts := []
    windfall_years := [], windfall_amounts := []
    rental_start := 0, rental_end := 0, rental_amt := 0, rental_yearly_increase := 0 }

/-- The single cash-flow entry of the one-year neutral trajectory. -/
def ledger_witness_entry : YearlyCashFlow :=
  ((runTrajectory zero_config 2025 zero_rates zero_inflation 0).cash_flows).headI

/-- Every year loop iteration appends exactly one cash-flow entry. -/
lemma runYears_length (config : SimulationConfig) (current_year : ℤ) (sim : ℕ)
    (rates : ℕ → ℚ × ℚ) (inflation_draws : ℕ → ℚ) :
    ∀ (n year : ℕ) (st : YearState),
      ((runYears config current_year sim rates inflation_draws n year st).cash_flows).length =
        st.cash_flows.length + n := by
  intro n
  induction n with
  | zero => intro year st; rfl
  | succ m ih =>
      intro year st
      simp only [runYears]
      rw [ih]
      simp only [simulateYear, List.length_append, List.length_singleton]
      omega

/-- Witness for C1: the ledger identity holds of the concrete entry of the
one-year neutral trajectory. -/
theorem ledger_identity_witness :
    ledger_witness_entry ∈
      (runTrajectory zero_config 2025 zero_rates zero_inflation 0).cash_flows ∧
    ledger_witness_entry.ending_balance =
      ledger_witness_entry.beginning_balance +
        ledger_witness_entry.investment_return.total +
        ledger_witness_entry.income.total - ledger_witness_entry.expenses.total -
        ledger_witness_entry.tax := by
  have hlen :
      ((runTrajectory zero_config 2025 zero_rates zero_inflation 0).cash_flows).length = 1 := by
    have h :=
      runYears_length zero_config 2025 0 zero_rates zero_inflation
        (years_in_simulation zero_config) 0 (initState zero_config)
    exact h
  have hmem : ledger_witness_entry ∈
      (runTrajectory zero_config 2025 zero_rates zero_inflation 0).cash_flows := by
    rcases hcase : (runTrajectory zero_config 2025 zero_rates zero_inflation 0).cash_flows with
      _ | ⟨a, t⟩
    · rw [hcase] at hlen; simp at hlen
    · have : ledger_witness_entry = a := by
        unfold ledger_witness_entry
        rw [hcase, List.headI_cons]
      rw [this]
      exact List.mem_cons_self a t
  exact ⟨hmem,
    ledger_identity zero_config 2025 zero_rates zero_inflation 0 ledger_witness_entry hmem⟩

/-! ### C6, C7, C8: depletion, the balance floor, and continuation -/

/-- The balance carried into the next year: this year's ending balance plus
downsize proceeds plus windfall (`savings = ending_portfolio_value +
downsize_proceeds + windfall_amount`, `simulation_mc_rf.py` line 367). -/
def carried_balance (cf : YearlyCashFlow) : ℚ :=
  cf.ending_balance + cf.downsize_proceeds + cf.windfall_amount

/-- Structural description of one year step: it appends exactly one entry,
whose carried balance is the new savings, whose beginning balance is the
floored previous savings, and the depletion year is only set once. -/
lemma simulateYear_unfold (config : SimulationConfig) (current_year : ℤ) (sim : ℕ)
    (rates : ℕ → ℚ × ℚ) (inflation_draws : ℕ → ℚ) (year : ℕ) (st : YearState) :
    ∃ e : YearlyCashFlow,
      (simulateYear config current_year sim rates inflation_draws year st).cash_flows =
        st.cash_flows ++ [e] ∧
      carried_balance e =
        (simulateYear config current_year sim rates inflation_draws year st).savings ∧
      e.beginning_balance = (if st.savings < 0 then -1 else st.savings) ∧
      (simulateYear config current_year sim rates inflation_draws year st).year_of_depletion =
        (match st.year_of_depletion with
         | some d => some d
         | none =>
             if (simulateYear config current_year sim rates inflation_draws year st).savings < 0
             then some (current_year + (year : ℤ))
             else none) ∧
      e.expense_adjustment =
        get_expense_adjustment config.adjust_expense_years config.adjust_expense_amounts
          (current_year + (year : ℤ)) :=
  ⟨_, rfl, rfl, rfl, rfl, rfl⟩

/-- Loop invariant: the recorded depletion year is the index of the first
entry with a negative carried balance, offset by the start calendar year. -/
lemma runYears_depletion_inv (config : SimulationConfig) (current_year : ℤ) (sim : ℕ)
    (rates : ℕ → ℚ × ℚ) (inflation_draws : ℕ → ℚ) :
    ∀ (n year : ℕ) (st : YearState),
      st.cash_flows.length = year →
      st.year_of_depletion =
        ((st.cash_flows.findIdx? fun cf => decide (carried_balance cf < 0)).map
          fun i : ℕ => current_year + (i : ℤ)) →
      (runYears config current_year sim rates inflation_draws n year st).year_of_depletion =
        (((runYears config current_year sim rates inflation_draws n year st).cash_flows.findIdx?
            fun cf => decide (carried_balance cf < 0)).map
          fun i : ℕ => current_year + (i : ℤ)) := by
  intro n
  induction n with
  | zero => intro year st _ h; exact h
  | succ m ih =>
      intro year st hlen hdep
      simp only [runYears]
      obtain ⟨e, he, hc, _, hd, _⟩ :=
        simulateYear_unfold config current_year sim rates inflation_draws year st
      apply ih (year + 1)
      · rw [he]
        simp [hlen]
      · rw [hd, he, List.findIdx?_append]
        cases hcase : st.year_of_depletion with
        | some d =>
            rw [hcase] at hdep
            cases hfi : (st.cash_flows.findIdx? fun cf => decide (carried_balance cf < 0)) with
            | none => rw [hfi] at hdep; simp at hdep
            | some i =>
                rw [hfi] at hdep
                simp only [Option.map_some'] at hdep
                simp [Option.or, hdep]
        | none =>
            rw [hcase] at hdep
            cases hfi : (st.cash_flows.findIdx? fun cf => decide (carried_balance cf < 0)) with
            | some i => rw [hfi] at hdep; simp at hdep
            | none =>
                simp only [Option.none_or]
                by_cases hp : carried_balance e < 0
                · rw [hc] at hp
                  simp [hp, ← hc, hlen]
                · rw [hc] at hp
                  simp [hp, ← hc, hlen]

/-- C6: the recorded depletion year is exactly the first simulated year whose
end-of-year carried balance is negative (`current_year + index` of the first
such entry), with the horizon's final calendar year as the sentinel when no
year is negative; being the first such year, it is never overwritten by any
later year. -/
theorem depletion_year_first_negative (config : SimulationConfig) (current_year : ℤ)
    (rates : ℕ → ℚ × ℚ) (inflation_draws : ℕ → ℚ) (sim : ℕ) :
    (runTrajectory config current_year rates inflation_draws sim).year_of_depletion =
      (((runTrajectory config current_year rates inflation_draws sim).cash_flows.findIdx?
          fun cf => decide (carried_balance cf < 0)).map
        fun i : ℕ => current_year + (i : ℤ)).getD
        (current_year + (years_in_simulation config : ℤ) - 1) := by
  have h :=
    runYears_depletion_inv config current_year sim rates inflation_draws
      (years_in_simulation config) 0 (initState config) rfl rfl
  simp only [runTrajectory]
  rw [h]

/-- Loop invariant for the floor normalization: consecutive recorded entries
satisfy the floored hand-off, and the last entry's carried balance is the
rolling savings. -/
lemma runYears_chain_inv (config : SimulationConfig) (current_year : ℤ) (sim : ℕ)
    (rates : ℕ → ℚ × ℚ) (inflation_draws : ℕ → ℚ) :
    ∀ (n year : ℕ) (st : YearState),
      List.Chain'
        (fun a b => b.beginning_balance =
          if carried_balance a < 0 then -1 else carried_balance a) st.cash_flows →
      (∀ last, st.cash_flows.getLast? = some last → carried_balance last = st.savings) →
      List.Chain'
        (fun a b => b.beginning_balance =
          if carried_balance a < 0 then -1 else carried_balance a)
        (runYears config current_year sim rates inflation_draws n year st).cash_flows ∧
      (∀ last,
        (runYears config current_year sim rates inflation_draws n year st).cash_flows.getLast? =
          some last →
        carried_balance last =
          (runYears config current_year sim rates inflation_draws n year st).savings) := by
  intro n
  induction n with
  | zero => intro year st hchain hlast; exact ⟨hchain, hlast⟩
  | succ m ih =>
      intro year st hchain hlast
      simp only [runYears]
      obtain ⟨e, he, hc, hb, _, _⟩ :=
        simulateYear_unfold config current_year sim rates inflation_draws year st
      apply ih (year + 1)
      · rw [he]
        apply List.Chain'.append hchain (List.chain'_singleton e)
        intro x hx y hy
        simp only [List.head?_cons, Option.mem_def, Option.some.injEq] at hy
        subst hy
        rw [hb, hlast x (Option.mem_def.mp hx)]
      · intro last hl
        rw [he, List.getLast?_concat] at hl
        cases hl
        exact hc

/-- C7 (amended): whenever a year ends with a negative carried balance, that
balance is normalized to the sentinel −1 at the start of the following year,
before any of that year's computation (each entry's beginning balance is the
floored carried balance of the previous entry).  The carried balance CAN,
however, return to a nonnegative value in a later year — income or windfalls
can exceed the year's outflows from the −1 floor (see the counterexample). -/
theorem opening_balance_floor (config : SimulationConfig) (current_year : ℤ)
    (rates : ℕ → ℚ × ℚ) (inflation_draws : ℕ → ℚ) (sim : ℕ) :
    List.Chain'
      (fun a b => b.beginning_balance =
        if carried_balance a < 0 then -1 else carried_balance a)
      (runTrajectory config current_year rates inflation_draws sim).cash_flows := by
  have h :=
    runYears_chain_inv config current_year sim rates inflation_draws
      (years_in_simulation config) 0 (initState config) List.chain'_nil (by intro last hl; simp [initState] at hl)
  exact h.1

/-- C8 (amended): after depletion (and regardless of it) the trajectory keeps
simulating every year of the horizon, recording exactly one `YearlyCashFlow`
per year rather than aborting. -/
theorem trajectory_records_every_year (config : SimulationConfig) (current_year : ℤ)
    (rates : ℕ → ℚ × ℚ) (inflation_draws : ℕ → ℚ) (sim : ℕ) :
    ((runTrajectory config current_year rates inflation_draws sim).cash_flows).length =
      years_in_simulation config := by
  have h :=
    runYears_length config current_year sim rates inflation_draws
      (years_in_simulation config) 0 (initState config)
  simpa [initState] using h

/-! ### C4: worst-to-best ordering of the returned results -/

/-- The sort key order is transitive. -/
lemma resLE_trans (a b c : SimulationResult) (hab : resLE a b) (hbc : resLE b c) :
    resLE a c := by
  simp only [resLE, decide_eq_true_eq] at *
  rcases hab with h | ⟨h1, h2⟩ <;> rcases hbc with h' | ⟨h1', h2'⟩
  · exact Or.inl (h.trans h')
  · exact Or.inl (h1' ▸ h)
  · exact Or.inl (h1 ▸ h')
  · exact Or.inr ⟨h1.trans h1', h2.trans h2'⟩

/-- The sort key order is total. -/
lemma resLE_total (a b : SimulationResult) : resLE a b || resLE b a := by
  simp only [resLE, Bool.or_eq_true, decide_eq_true_eq]
  rcases lt_trichotomy a.year_of_depletion b.year_of_depletion with h | h | h
  · exact Or.inl (Or.inl h)
  · rcases le_total a.final_balance b.final_balance with hb | hb
    · exact Or.inl (Or.inr ⟨h, hb⟩)
    · exact Or.inr (Or.inr ⟨h.symm, hb⟩)
  · exact Or.inr (Or.inl h)

/-- C4: the returned result sequence is a permutation of the per-trajectory
results, pairwise ordered ascending by the lexicographic key (depletion year,
final balance): any earlier-depleting trajectory precedes every
later-depleting one regardless of final balance, and among equal depletion
years a lower final balance comes first. -/
theorem results_sorted_by_depletion_then_balance (config : SimulationConfig)
    (current_year : ℤ) (rates : ℕ → ℕ → ℚ × ℚ) (inflation_draws : ℕ → ℕ → ℚ) :
    List.Pairwise (fun a b => resLE a b = true)
      (monte_carlo_simulation config current_year rates inflation_draws).2.2 ∧
    List.Perm (monte_carlo_simulation config current_year rates inflation_draws).2.2
      ((List.range config.simulations).map
        (fun sim =>
          runTrajectory config current_year (rates sim) (inflation_draws sim) sim)) := by
  constructor
  · have h :=
      List.sorted_mergeSort resLE_trans resLE_total
        ((List.range config.simulations).map
          (fun sim =>
            runTrajectory config current_year (rates sim) (inflation_draws sim) sim))
    simpa [monte_carlo_simulation] using h
  · have h :=
      List.mergeSort_perm
        ((List.range config.simulations).map
          (fun sim =>
            runTrajectory config current_year (rates sim) (inflation_draws sim) sim))
        resLE
    simpa [monte_carlo_simulation] using h

/-! ### Concrete counterexample trajectories -/

/-- Two-year configuration: zero income, expense 10, and a windfall of 100 in
the second calendar year — the carried balance recovers after depletion. -/
def recovery_config : SimulationConfig :=
  { zero_config with
    life_expectancy := 61
    annual_expense := 10
    windfall_years := [2026]
    windfall_amounts := [100] }

/-- One-year configuration: zero income and savings, expense 100, but a
well-funded brokerage account — depletion of the carried savings balance is
recorded although the waterfall fully meets the requested draw. -/
def exhaust_config : SimulationConfig :=
  { zero_config with
    annual_expense := 100
    brokerage_balance := 1000 }

/-- Counterexample for C7 as stated: in `recovery_config`, year 0's carried
balance is negative (−10), yet year 1's carried balance is nonnegative again
(−11 + windfall 100 = 89) — the carried balance does return to a nonnegative
value after the first negative year. -/
theorem floor_recovery_counterexample :
    carried_balance
        (((runTrajectory recovery_config 2025 zero_rates zero_inflation 0).cash_flows).getD 0
          default) < 0 ∧
    0 ≤ carried_balance
        (((runTrajectory recovery_config 2025 zero_rates zero_inflation 0).cash_flows).getD 1
          default) := by
  have hflows :
      (runTrajectory recovery_config 2025 zero_rates zero_inflation 0).cash_flows =
        (simulateYear recovery_config 2025 0 zero_rates zero_inflation 1
          (simulateYear recovery_config 2025 0 zero_rates zero_inflation 0
            (initState recovery_config))).cash_flows := rfl
  rw [hflows]
  norm_num [simulateYear, initState, recovery_config, zero_config, carried_balance,
    zero_rates, zero_inflation, calculate_yearly_income, calculate_earnings,
    calculate_social_security, calculate_pension, calculate_yearly_expenses,
    calculate_mortgage, calculate_healthcare_costs, calculate_one_time_expense,
    calculate_windfall, get_expense_adjustment, calculate_401k_contribution,
    get_latest_limit, contribution_limits_401k, contribution_limits_catch_up,
    cathup_age_401k, calculate_portfolio_draw, calculate_draws,
    calculate_investment_return, update_account_balances, adjust_expenses,
    CASH_ACCOUNT_RETURN_RATE, YearlyExpenses.total, YearlyIncome.total, min_def]

/-- Counterexample for C8 as stated: in `exhaust_config`, the depletion year
2025 is recorded although the waterfall fully supplied the requested draw of
100 (realized draw = requested draw) and the brokerage account still holds
900 afterwards — depletion is driven by the separate savings ledger, not by
account exhaustion. -/
theorem depletion_without_exhaustion_counterexample :
    (runTrajectory exhaust_config 2025 zero_rates zero_inflation 0).year_of_depletion = 2025 ∧
    (((runTrajectory exhaust_config 2025 zero_rates zero_inflation 0).cash_flows).getD 0
        default).draws.total =
      (((runTrajectory exhaust_config 2025 zero_rates zero_inflation 0).cash_flows).getD 0
        default).portfolio_draw ∧
    (((runTrajectory exhaust_config 2025 zero_rates zero_inflation 0).cash_flows).getD 0
        default).portfolio_draw = 100 ∧
    (((runTrajectory exhaust_config 2025 zero_rates zero_inflation 0).cash_flows).getD 0
        default).account_balances.brokerage = 900 := by
  have hres :
      runTrajectory exhaust_config 2025 zero_rates zero_inflation 0 =
        (let st :=
          simulateYear exhaust_config 2025 0 zero_rates zero_inflation 0
            (initState exhaust_config)
         { simulation_id := 0
           year_of_depletion := st.year_of_depletion.getD (2025 + (1 : ℤ) - 1)
           final_balance := st.savings
           success := decide (st.savings ≥ 0)
           cash_flows := st.cash_flows }) := rfl
  rw [hres]
  norm_num [simulateYear, initState, exhaust_config, zero_config,
    zero_rates, zero_inflation, calculate_yearly_income, calculate_earnings,
    calculate_social_security, calculate_pension, calculate_yearly_expenses,
    calculate_mortgage, calculate_healthcare_costs, calculate_one_time_expense,
    calculate_windfall, get_expense_adjustment, calculate_401k_contribution,
    get_latest_limit, contribution_limits_401k, contribution_limits_catch_up,
    cathup_age_401k, calculate_portfolio_draw, calculate_draws,
    calculate_investment_return, update_account_balances, adjust_expenses,
    CASH_ACCOUNT_RETURN_RATE, YearlyExpenses.total, YearlyIncome.total, min_def]

/-! ### C10: the recorded expense adjustment is inert -/

/-- A config with the recurring expense-adjustment schedule replaced. -/
def with_adjustments (config : SimulationConfig) (ay : List ℤ) (aa : List ℚ) :
    SimulationConfig :=
  { config with adjust_expense_years := ay, adjust_expense_amounts := aa }

/-- Forget the `expense_adjustment` field of a cash-flow entry. -/
def erase_adjustment (cf : YearlyCashFlow) : YearlyCashFlow :=
  { cf with expense_adjustment := 0 }

/-- One year step is oblivious to the expense-adjustment schedule except for
the recorded `expense_adjustment` field. -/
lemma simulateYear_adjust_frame (config : SimulationConfig) (ay : List ℤ) (aa : List ℚ)
    (current_year : ℤ) (sim : ℕ) (rates : ℕ → ℚ × ℚ) (inflation_draws : ℕ → ℚ)
    (year : ℕ) (st st' : YearState)
    (hb : st'.balances = st.balances) (hs : st'.savings = st.savings)
    (he : st'.current_annual_expense = st.current_annual_expense)
    (hd : st'.year_of_depletion = st.year_of_depletion)
    (hc : st'.cash_flows.map erase_adjustment = st.cash_flows.map erase_adjustment) :
    (simulateYear (with_adjustments config ay aa) current_year sim rates inflation_draws
        year st').balances =
      (simulateYear config current_year sim rates inflation_draws year st).balances ∧
    (simulateYear (with_adjustments config ay aa) current_year sim rates inflation_draws
        year st').savings =
      (simulateYear config current_year sim rates inflation_draws year st).savings ∧
    (simulateYear (with_adjustments config ay aa) current_year sim rates inflation_draws
        year st').current_annual_expense =
      (simulateYear config current_year sim rates inflation_draws year st).current_annual_expense ∧
    (simulateYear (with_adjustments config ay aa) current_year sim rates inflation_draws
        year st').year_of_depletion =
      (simulateYear config current_year sim rates inflation_draws year st).year_of_depletion ∧
    ((simulateYear (with_adjustments config ay aa) current_year sim rates inflation_draws
        year st').cash_flows).map erase_adjustment =
      ((simulateYear config current_year sim rates inflation_draws year st).cash_flows).map
        erase_adjustment := by
  simp only [simulateYear]
  rw [hb, hs, he, hd]
  refine ⟨rfl, rfl, rfl, rfl, ?_⟩
  rw [List.map_append, List.map_append, hc]
  rfl

/-- Loop-level version of the frame property. -/
lemma runYears_adjust_frame (config : SimulationConfig) (ay : List ℤ) (aa : List ℚ)
    (current_year : ℤ) (sim : ℕ) (rates : ℕ → ℚ × ℚ) (inflation_draws : ℕ → ℚ) :
    ∀ (n year : ℕ) (st st' : YearState),
      st'.balances = st.balances → st'.savings = st.savings →
      st'.current_annual_expense = st.current_annual_expense →
      st'.year_of_depletion = st.year_of_depletion →
      st'.cash_flows.map erase_adjustment = st.cash_flows.map erase_adjustment →
      (runYears (with_adjustments config ay aa) current_year sim rates inflation_draws
          n year st').balances =
        (runYears config current_year sim rates inflation_draws n year st).balances ∧
      (runYears (with_adjustments config ay aa) current_year sim rates inflation_draws
          n year st').savings =
        (runYears config current_year sim rates inflation_draws n year st).savings ∧
      (runYears (with_adjustments config ay aa) current_year sim rates inflation_draws
          n year st').current_annual_expense =
        (runYears config current_year sim rates inflation_draws n year st).current_annual_expense ∧
      (runYears (with_adjustments config ay aa) current_year sim rates inflation_draws
          n year st').year_of_depletion =
        (runYears config current_year sim rates inflation_draws n year st).year_of_depletion ∧
      ((runYears (with_adjustments config ay aa) current_year sim rates inflation_draws
          n year st').cash_flows).map erase_adjustment =
        ((runYears config current_year sim rates inflation_draws n year st).cash_flows).map
          erase_adjustment := by
  intro n
  induction n with
  | zero => intro year st st' hb hs he hd hc; exact ⟨hb, hs, he, hd, hc⟩
  | succ m ih =>
      intro year st st' hb hs he hd hc
      simp only [runYears]
      obtain ⟨hb', hs', he', hd', hc'⟩ :=
        simulateYear_adjust_frame config ay aa current_year sim rates inflation_draws
          year st st' hb hs he hd hc
      exact ih (year + 1) _ _ hb' hs' he' hd' hc'

/-- The recorded `expense_adjustment` fields are exactly the schedule lookups
for the simulated calendar years. -/
lemma runYears_adjustment_field (config : SimulationConfig) (current_year : ℤ) (sim : ℕ)
    (rates : ℕ → ℚ × ℚ) (inflation_draws : ℕ → ℚ) :
    ∀ (n year : ℕ) (st : YearState),
      ((runYears config current_year sim rates inflation_draws n year st).cash_flows).map
          (fun cf => cf.expense_adjustment) =
        st.cash_flows.map (fun cf => cf.expense_adjustment) ++
          (List.range' year n).map
            (fun y : ℕ => get_expense_adjustment config.adjust_expense_years
              config.adjust_expense_amounts (current_year + (y : ℤ))) := by
  intro n
  induction n with
  | zero => intro year st; simp [runYears]
  | succ m ih =>
      intro year st
      simp only [runYears]
      rw [ih (year + 1)]
      obtain ⟨e, he, _, _, _, hadj⟩ :=
        simulateYear_unfold config current_year sim rates inflation_draws year st
      rw [he, List.map_append, List.range'_succ, List.map_cons]
      simp only [List.map_cons, List.map_nil, List.append_assoc, List.cons_append,
        List.nil_append]
      rw [hadj]

/-- C10: in the five-account engine the expense-adjustment schedule only
feeds the recorded `expense_adjustment` field — the schedule lookup for each
simulated calendar year is stored there, but every monetary outcome
(depletion year, final balance, success flag, and every other field of every
cash flow) is identical under any other schedule, in particular an empty
one. -/
theorem expense_adjustment_frame (config : SimulationConfig) (ay : List ℤ) (aa : List ℚ)
    (current_year : ℤ) (rates : ℕ → ℚ × ℚ) (inflation_draws : ℕ → ℚ) (sim : ℕ) :
    (runTrajectory (with_adjustments config ay aa) current_year rates inflation_draws
        sim).year_of_depletion =
      (runTrajectory config current_year rates inflation_draws sim).year_of_depletion ∧
    (runTrajectory (with_adjustments config ay aa) current_year rates inflation_draws
        sim).final_balance =
      (runTrajectory config current_year rates inflation_draws sim).final_balance ∧
    (runTrajectory (with_adjustments config ay aa) current_year rates inflation_draws
        sim).success =
      (runTrajectory config current_year rates inflation_draws sim).success ∧
    ((runTrajectory (with_adjustments config ay aa) current_year rates inflation_draws
        sim).cash_flows).map erase_adjustment =
      ((runTrajectory config current_year rates inflation_draws sim).cash_flows).map
        erase_adjustment ∧
    ((runTrajectory config current_year rates inflation_draws sim).cash_flows).map
        (fun cf => cf.expense_adjustment) =
      (List.range (years_in_simulation config)).map
        (fun y : ℕ => get_expense_adjustment config.adjust_expense_years
          config.adjust_expense_amounts (current_year + (y : ℤ))) := by
  have hyears : years_in_simulation (with_adjustments config ay aa) =
      years_in_simulation config := rfl
  have hinit : initState (with_adjustments config ay aa) = initState config := rfl
  obtain ⟨hb, hs, he, hd, hc⟩ :=
    runYears_adjust_frame config ay aa current_year sim rates inflation_draws
      (years_in_simulation config) 0 (initState config) (initState config)
      rfl rfl rfl rfl rfl
  have hfield :=
    runYears_adjustment_field config current_year sim rates inflation_draws
      (years_in_simulation config) 0 (initState config)
  simp only [runTrajectory, hyears, hinit]
  refine ⟨by rw [hd], hs, by rw [hs], hc, ?_⟩
  rw [hfield]
  simp [initState, List.range_eq_range']
